import Mathlib

/-!
Verification of the speech-service module (`app/services/elevenlabs.py`):
speech-to-text (STT) and text-to-speech (TTS) fallback chains with a
process-wide sticky "primary provider blocked" flag.

The Python module is shallowly embedded: each vendor HTTP call is abstracted
by the response the environment would give it (`HttpResponse`), the
process-global `_elevenlabs_blocked` boolean is threaded explicitly through
every function, and Python exceptions that escape a function are modelled by
an `Except` result.  Each entry point additionally reports which providers
it actually called, so that "the secondary is never called" can be stated.
-/

/-- Byte sequences (`bytes` in Python) are lists of byte values. -/
abbrev ByteSeq := List Nat

/-- Python exceptions that can escape the embedded functions.  The only
uncaught exception in the module is the JSON decode failure raised by
`resp.json()` on a 2xx response whose body is not valid JSON (an
`AttributeError` from `.get` on a non-dict JSON value behaves the same way);
the `except` clauses catch only `httpx.HTTPStatusError` and
`httpx.RequestError`. -/
inductive PyError where
  | jsonDecodeError
deriving DecidableEq, Repr

/-- Body of an STT vendor response as seen by `resp.json().get("text", "")`:
either valid JSON carrying a `text` field (absent field modelled as `""`,
exactly what `.get("text", "")` yields), or a body on which `resp.json()`
(or the subsequent `.get`) raises. -/
inductive SttBody where
  | json (text : String)
  | malformed
deriving DecidableEq, Repr

/-- Outcome of one outbound HTTP call, as the calling code observes it:
a 2xx response with a body (`raise_for_status` passes), a non-success
status (`raise_for_status` raises `httpx.HTTPStatusError`, carrying the
status code and the textual body inspected by the handler), or a
network/transport/timeout failure (`httpx.RequestError`). -/
inductive HttpResponse (β : Type) where
  | success (body : β)
  | statusError (status : Nat) (bodyText : String)
  | requestError
deriving DecidableEq, Repr

/-- Python truthiness of an optional string configuration value:
`None` and `""` are falsy, any other string is truthy. -/
def truthy : Option String → Bool
  | none => false
  | some s => s ≠ ""

/-- Configuration consumed by the module (from `app.config`). -/
structure Config where
  ELEVENLABS_API_KEY : Option String
  ELEVENLABS_VOICE_ID : Option String
  GROQ_API_KEY : Option String
deriving DecidableEq, Repr

/-- Character-list prefix test (helper for the substring test below). -/
def startsWith : List Char → List Char → Bool
  | [], _ => true
  | _ :: _, [] => false
  | p :: ps, c :: cs => p == c && startsWith ps cs

/-- Substring containment on character lists: `pat` occurs contiguously in
the second argument. -/
def hasSubList (pat : List Char) : List Char → Bool
  | [] => pat.isEmpty
  | c :: rest => startsWith pat (c :: rest) || hasSubList pat rest

/-- The substring test `"unusual_activity" in body` from the two primary
error handlers. -/
def containsMarker (body : String) : Bool :=
  hasSubList "unusual_activity".toList body.toList

/-- Classification of a primary-vendor response as blocking, mirroring
`if "unusual_activity" in body or exc.response.status_code == 401` in both
`_elevenlabs_tts` and `_elevenlabs_stt`.  Successful and transport-failed
calls are never blocking. -/
def isBlockingResp {β : Type} : HttpResponse β → Bool
  | .statusError status bodyText => containsMarker bodyText || status == 401
  | _ => false

/-- Module-level initialisation `_elevenlabs_blocked = False`. -/
def initial_elevenlabs_blocked : Bool := false

/-- Extension extraction from both STT helpers:
`filename.rsplit(".", 1)[-1].lower() if "." in filename else "wav"`.
The part after the last `'.'` is the reversed longest dot-free suffix;
`.lower()` is ASCII lowercasing (`Char.toLower`), which agrees with Python
on the extensions in the table. -/
def extOf (filename : String) : String :=
  if filename.toList.contains '.' then
    ⟨(filename.toList.reverse.takeWhile (fun c => c ≠ '.')).reverse.map Char.toLower⟩
  else "wav"

/-- The `mime_map` dictionary lookup `mime_map.get(ext)` (identical tables in
`_elevenlabs_stt` and `_groq_whisper_stt`); `none` means the key is absent. -/
def mimeMap (ext : String) : Option String :=
  if ext = "wav" then some "audio/wav"
  else if ext = "mp3" then some "audio/mpeg"
  else if ext = "webm" then some "audio/webm"
  else if ext = "ogg" then some "audio/ogg"
  else if ext = "oga" then some "audio/ogg"
  else if ext = "opus" then some "audio/ogg"
  else if ext = "m4a" then some "audio/mp4"
  else if ext = "flac" then some "audio/flac"
  else none

/-- MIME resolution in `_elevenlabs_stt`:
`mime_map.get(ext, "audio/ogg")` applied to the extracted extension. -/
def elevenlabs_mime (filename : String) : String :=
  (mimeMap (extOf filename)).getD "audio/ogg"

/-- MIME resolution in `_groq_whisper_stt`: textually the same computation as
in `_elevenlabs_stt` (the source duplicates the table). -/
def groq_mime (filename : String) : String :=
  (mimeMap (extOf filename)).getD "audio/ogg"

/-- The body of `_elevenlabs_stt` after request marshalling, as a function of
the vendor's response and the current `_elevenlabs_blocked` flag.  Returns
the Python result (`str | None`, or an escaping exception) paired with the
updated flag:
* 2xx with JSON body: return the `text` field if non-empty, else `None`;
* 2xx with a non-JSON body: `resp.json()` raises, uncaught (the handlers
  catch only `httpx` errors);
* `HTTPStatusError`: set the flag when the body contains the anomaly marker
  or the status is 401, then return `None`;
* `RequestError`: return `None`. -/
def elevenlabs_stt (resp : HttpResponse SttBody) (blocked : Bool) :
    Except PyError (Option String) × Bool :=
  match resp with
  | .success (.json transcript) =>
      if transcript ≠ "" then (.ok (some transcript), blocked)
      else (.ok none, blocked)
  | .success .malformed => (.error .jsonDecodeError, blocked)
  | .statusError status bodyText =>
      if containsMarker bodyText || status == 401 then (.ok none, true)
      else (.ok none, blocked)
  | .requestError => (.ok none, blocked)

/-- The body of `_groq_whisper_stt` as a function of the vendor's response.
It never touches the blocked flag; both `httpx` exception classes are caught
and yield `None`, while a non-JSON 2xx body raises uncaught. -/
def groq_whisper_stt (resp : HttpResponse SttBody) : Except PyError (Option String) :=
  match resp with
  | .success (.json transcript) =>
      if transcript ≠ "" then .ok (some transcript) else .ok none
  | .success .malformed => .error .jsonDecodeError
  | .statusError _ _ => .ok none
  | .requestError => .ok none

/-- Responses the environment would give to the two STT vendor calls of one
`transcribe_audio` invocation, were they made. -/
structure SttEnv where
  primaryResp : HttpResponse SttBody
  secondaryResp : HttpResponse SttBody
deriving DecidableEq, Repr

instance {ε α : Type} [DecidableEq ε] [DecidableEq α] : DecidableEq (Except ε α) :=
  fun a b =>
  match a, b with
  | .error e, .error f => decidable_of_iff (e = f) (by simp)
  | .ok x, .ok y => decidable_of_iff (x = y) (by simp)
  | .error _, .ok _ => isFalse (by simp)
  | .ok _, .error _ => isFalse (by simp)

/-- Observable outcome of one `transcribe_audio` call: its return value (or
escaping exception), the `_elevenlabs_blocked` flag afterwards, and which
vendors were actually called. -/
structure SttOutcome where
  result : Except PyError (Option String)
  blocked : Bool
  primaryCalled : Bool
  secondaryCalled : Bool
deriving DecidableEq, Repr

/-- `transcribe_audio`: try ElevenLabs if the key is truthy and the flag is
unset, return its transcript when non-`None`; otherwise fall through to Groq
Whisper if that key is truthy; otherwise `None`.  An exception escaping a
helper escapes `transcribe_audio` too (there is no `try` in the entry
point). -/
def transcribe_audio (cfg : Config) (env : SttEnv) (blocked : Bool) : SttOutcome :=
  if truthy cfg.ELEVENLABS_API_KEY && !blocked then
    match elevenlabs_stt env.primaryResp blocked with
    | (.error e, b') => ⟨.error e, b', true, false⟩
    | (.ok (some t), b') => ⟨.ok (some t), b', true, false⟩
    | (.ok none, b') =>
        if truthy cfg.GROQ_API_KEY then
          ⟨groq_whisper_stt env.secondaryResp, b', true, true⟩
        else ⟨.ok none, b', true, false⟩
  else
    if truthy cfg.GROQ_API_KEY then
      ⟨groq_whisper_stt env.secondaryResp, blocked, false, true⟩
    else ⟨.ok none, blocked, false, false⟩

/-- The body of `_elevenlabs_tts` as a function of the vendor's response and
the flag: a 2xx response returns `resp.content` unconditionally (even when
empty); an `HTTPStatusError` whose body contains the anomaly marker or whose
status is 401 sets the flag; every handled failure returns `None`. -/
def elevenlabs_tts (resp : HttpResponse ByteSeq) (blocked : Bool) :
    Option ByteSeq × Bool :=
  match resp with
  | .success audio_bytes => (some audio_bytes, blocked)
  | .statusError status bodyText =>
      if containsMarker bodyText || status == 401 then (none, true)
      else (none, blocked)
  | .requestError => (none, blocked)

/-- One chunk of the Edge-TTS stream: tagged audio data, or anything else
(e.g. word-boundary metadata), which `_edge_tts` skips. -/
inductive EdgeChunk where
  | audio (data : ByteSeq)
  | other
deriving DecidableEq, Repr

/-- Behaviour of the Edge-TTS stream: a finite chunk sequence, or an
exception somewhere during synthesis (caught by the broad
`except Exception`). -/
inductive EdgeStream where
  | stream (chunks : List EdgeChunk)
  | raises
deriving DecidableEq, Repr

/-- Concatenation of the data of the audio-tagged chunks, in order — the
final content of `buffer` in `_edge_tts`. -/
def edgeAudioBytes (chunks : List EdgeChunk) : ByteSeq :=
  chunks.foldl (fun acc c => match c with | .audio d => acc ++ d | .other => acc) []

/-- The body of `_edge_tts`: concatenate the audio chunks and return the
result if non-empty, else `None`; any exception is caught and yields
`None`. -/
def edge_tts (s : EdgeStream) : Option ByteSeq :=
  match s with
  | .stream chunks =>
      let audio_bytes := edgeAudioBytes chunks
      if audio_bytes ≠ [] then some audio_bytes else none
  | .raises => none

/-- Responses the environment would give to the two TTS backends of one
`text_to_speech` invocation, were they called. -/
structure TtsEnv where
  primaryResp : HttpResponse ByteSeq
  secondaryStream : EdgeStream
deriving DecidableEq, Repr

/-- Observable outcome of one `text_to_speech` call. -/
structure TtsOutcome where
  result : Option ByteSeq
  blocked : Bool
  primaryCalled : Bool
  secondaryCalled : Bool
deriving DecidableEq, Repr

/-- Gate of step 1 of `text_to_speech`:
`if not _elevenlabs_blocked and ELEVENLABS_API_KEY and ELEVENLABS_VOICE_ID`. -/
def ttsPrimaryAttempted (cfg : Config) (blocked : Bool) : Bool :=
  !blocked && truthy cfg.ELEVENLABS_API_KEY && truthy cfg.ELEVENLABS_VOICE_ID

/-- `text_to_speech`: try ElevenLabs when configured and unblocked and return
its bytes when non-`None`; otherwise always try Edge-TTS; otherwise `None`
(the browser fallback signal). -/
def text_to_speech (cfg : Config) (env : TtsEnv) (blocked : Bool) : TtsOutcome :=
  if ttsPrimaryAttempted cfg blocked then
    match elevenlabs_tts env.primaryResp blocked with
    | (some audio_bytes, b') => ⟨some audio_bytes, b', true, false⟩
    | (none, b') =>
        match edge_tts env.secondaryStream with
        | some audio_bytes => ⟨some audio_bytes, b', true, true⟩
        | none => ⟨none, b', true, true⟩
  else
    match edge_tts env.secondaryStream with
    | some audio_bytes => ⟨some audio_bytes, blocked, false, true⟩
    | none => ⟨none, blocked, false, true⟩

/-- A primary failure that the error handlers do not classify as blocking:
an HTTP status error that is not 401 and whose body lacks the anomaly
marker, or a transport error. -/
def nonBlockingFailure {β : Type} (r : HttpResponse β) : Prop :=
  (∃ status bodyText, r = .statusError status bodyText ∧
      status ≠ 401 ∧ containsMarker bodyText = false) ∨
  r = .requestError

example : elevenlabs_mime "note.flac" = "audio/flac" := by decide
example : elevenlabs_mime "note.xyz" = "audio/ogg" := by decide
example : elevenlabs_mime "NOTE.FLAC" = "audio/flac" := by decide
example : elevenlabs_mime "note" = "audio/wav" := by decide
example : containsMarker "xx unusual_activity yy" = true := by decide
example : containsMarker "rate limited" = false := by decide
example :
    (transcribe_audio ⟨some "k", none, some "g"⟩
      ⟨.statusError 401 "denied", .success (.json "hi")⟩ false) =
    ⟨.ok (some "hi"), true, true, true⟩ := by decide
example :
    (text_to_speech ⟨some "k", some "v", none⟩
      ⟨.statusError 500 "boom", .stream [.audio [1, 2], .other, .audio [3]]⟩ false) =
    ⟨some [1, 2, 3], false, true, true⟩ := by decide

/-! ### Helper lemmas shared by the claim theorems -/

/-- The flag returned by `_elevenlabs_stt` is the old flag, set exactly when
the response is classified as blocking. -/
theorem elevenlabs_stt_snd (resp : HttpResponse SttBody) (b : Bool) :
    (elevenlabs_stt resp b).2 = (b || isBlockingResp resp) := by
  cases resp with
  | success bdy =>
      cases bdy with
      | json t =>
          by_cases ht : t = "" <;> simp [elevenlabs_stt, isBlockingResp, ht]
      | malformed => simp [elevenlabs_stt, isBlockingResp]
  | statusError s bt =>
      by_cases hc : (containsMarker bt || s == 401) = true <;>
        simp [elevenlabs_stt, isBlockingResp, hc]
  | requestError => simp [elevenlabs_stt, isBlockingResp]

/-- The flag returned by `_elevenlabs_tts` is the old flag, set exactly when
the response is classified as blocking. -/
theorem elevenlabs_tts_snd (resp : HttpResponse ByteSeq) (b : Bool) :
    (elevenlabs_tts resp b).2 = (b || isBlockingResp resp) := by
  cases resp with
  | success bytes => simp [elevenlabs_tts, isBlockingResp]
  | statusError s bt =>
      by_cases hc : (containsMarker bt || s == 401) = true <;>
        simp [elevenlabs_tts, isBlockingResp, hc]
  | requestError => simp [elevenlabs_tts, isBlockingResp]

/-- A response other than a malformed-JSON 2xx never makes `_elevenlabs_stt`
raise. -/
theorem elevenlabs_stt_ok (resp : HttpResponse SttBody) (b : Bool)
    (h : resp ≠ .success .malformed) :
    ∃ r, (elevenlabs_stt resp b).1 = .ok r := by
  cases resp with
  | success bdy =>
      cases bdy with
      | json t =>
          by_cases ht : t = ""
          · exact ⟨none, by simp [elevenlabs_stt, ht]⟩
          · exact ⟨some t, by simp [elevenlabs_stt, ht]⟩
      | malformed => exact absurd rfl h
  | statusError s bt =>
      refine ⟨none, ?_⟩
      by_cases hc : (containsMarker bt || s == 401) = true <;>
        simp [elevenlabs_stt, hc]
  | requestError => exact ⟨none, rfl⟩

/-- A response other than a malformed-JSON 2xx never makes
`_groq_whisper_stt` raise. -/
theorem groq_whisper_stt_ok (resp : HttpResponse SttBody)
    (h : resp ≠ .success .malformed) :
    ∃ r, groq_whisper_stt resp = .ok r := by
  cases resp with
  | success bdy =>
      cases bdy with
      | json t =>
          by_cases ht : t = ""
          · exact ⟨none, by simp [groq_whisper_stt, ht]⟩
          · exact ⟨some t, by simp [groq_whisper_stt, ht]⟩
      | malformed => exact absurd rfl h
  | statusError s bt => exact ⟨none, rfl⟩
  | requestError => exact ⟨none, rfl⟩

/-- A non-blocking failed primary STT call returns `None` and leaves the
flag unchanged. -/
theorem elevenlabs_stt_nonblocking (resp : HttpResponse SttBody) (b : Bool)
    (h : nonBlockingFailure resp) :
    elevenlabs_stt resp b = (.ok none, b) := by
  rcases h with ⟨s, bt, rfl, h401, hmk⟩ | rfl
  · have hc : (containsMarker bt || s == 401) = false := by
      simp [hmk, beq_eq_false_iff_ne, h401]
    simp [elevenlabs_stt, hc]
  · rfl

/-- A non-blocking failed primary TTS call returns `None` and leaves the
flag unchanged. -/
theorem elevenlabs_tts_nonblocking (resp : HttpResponse ByteSeq) (b : Bool)
    (h : nonBlockingFailure resp) :
    elevenlabs_tts resp b = (none, b) := by
  rcases h with ⟨s, bt, rfl, h401, hmk⟩ | rfl
  · have hc : (containsMarker bt || s == 401) = false := by
      simp [hmk, beq_eq_false_iff_ne, h401]
    simp [elevenlabs_tts, hc]
  · rfl

/-! ### Claim theorems -/

/-- C1: for every audio input, if the primary STT provider is configured,
the blocked flag is false, and the primary STT call returns a non-empty
transcript, then `transcribe_audio` returns exactly that transcript and the
secondary (Groq) provider is never called. -/
theorem C1_primary_stt_short_circuit (cfg : Config) (env : SttEnv) (t : String)
    (hkey : truthy cfg.ELEVENLABS_API_KEY = true)
    (hresp : env.primaryResp = .success (.json t))
    (ht : t ≠ "") :
    (transcribe_audio cfg env false).result = .ok (some t) ∧
    (transcribe_audio cfg env false).primaryCalled = true ∧
    (transcribe_audio cfg env false).secondaryCalled = false := by
  simp [transcribe_audio, elevenlabs_stt, hkey, hresp, ht]

/-- Witness for C1 at a concrete configuration and response. -/
theorem C1_witness :
    (transcribe_audio ⟨some "k", none, some "g"⟩
        ⟨.success (.json "hello"), .requestError⟩ false).result = .ok (some "hello") ∧
    (transcribe_audio ⟨some "k", none, some "g"⟩
        ⟨.success (.json "hello"), .requestError⟩ false).primaryCalled = true ∧
    (transcribe_audio ⟨some "k", none, some "g"⟩
        ⟨.success (.json "hello"), .requestError⟩ false).secondaryCalled = false :=
  C1_primary_stt_short_circuit ⟨some "k", none, some "g"⟩
    ⟨.success (.json "hello"), .requestError⟩ "hello" (by decide) rfl (by decide)

/-- C2: a primary STT call answering HTTP 401 (or carrying the anomaly
marker) makes that `transcribe_audio` call fall through to Groq, sets the
shared flag, and every subsequent call with the flag set skips the primary
entirely and goes straight to the secondary, whatever the primary would
have answered. -/
theorem C2_block_then_skip_primary (cfg : Config) (env1 env2 : SttEnv)
    (status : Nat) (bodyText : String)
    (hkey : truthy cfg.ELEVENLABS_API_KEY = true)
    (hgroq : truthy cfg.GROQ_API_KEY = true)
    (hresp : env1.primaryResp = .statusError status bodyText)
    (hclass : status = 401 ∨ containsMarker bodyText = true) :
    (transcribe_audio cfg env1 false).primaryCalled = true ∧
    (transcribe_audio cfg env1 false).secondaryCalled = true ∧
    (transcribe_audio cfg env1 false).result = groq_whisper_stt env1.secondaryResp ∧
    (transcribe_audio cfg env1 false).blocked = true ∧
    (transcribe_audio cfg env2 true).primaryCalled = false ∧
    (transcribe_audio cfg env2 true).secondaryCalled = true ∧
    (transcribe_audio cfg env2 true).result = groq_whisper_stt env2.secondaryResp := by
  have hc : (containsMarker bodyText || status == 401) = true := by
    rcases hclass with h | h
    · subst h; simp
    · simp [h]
  simp [transcribe_audio, elevenlabs_stt, hkey, hgroq, hresp, hc]

/-- Witness for C2: a 401 on the first call, a would-succeed primary on the
second. -/
theorem C2_witness :
    (transcribe_audio ⟨some "k", none, some "g"⟩
        ⟨.statusError 401 "denied", .success (.json "hi")⟩ false).primaryCalled = true ∧
    (transcribe_audio ⟨some "k", none, some "g"⟩
        ⟨.statusError 401 "denied", .success (.json "hi")⟩ false).secondaryCalled = true ∧
    (transcribe_audio ⟨some "k", none, some "g"⟩
        ⟨.statusError 401 "denied", .success (.json "hi")⟩ false).result =
      groq_whisper_stt (.success (.json "hi")) ∧
    (transcribe_audio ⟨some "k", none, some "g"⟩
        ⟨.statusError 401 "denied", .success (.json "hi")⟩ false).blocked = true ∧
    (transcribe_audio ⟨some "k", none, some "g"⟩
        ⟨.success (.json "would succeed"), .success (.json "hi2")⟩ true).primaryCalled = false ∧
    (transcribe_audio ⟨some "k", none, some "g"⟩
        ⟨.success (.json "would succeed"), .success (.json "hi2")⟩ true).secondaryCalled = true ∧
    (transcribe_audio ⟨some "k", none, some "g"⟩
        ⟨.success (.json "would succeed"), .success (.json "hi2")⟩ true).result =
      groq_whisper_stt (.success (.json "hi2")) :=
  C2_block_then_skip_primary ⟨some "k", none, some "g"⟩
    ⟨.statusError 401 "denied", .success (.json "hi")⟩
    ⟨.success (.json "would succeed"), .success (.json "hi2")⟩
    401 "denied" (by decide) (by decide) rfl (Or.inl rfl)

/-- C4: with neither STT provider configured, `transcribe_audio` returns
`None` and calls no vendor at all, whatever the flag and the environment. -/
theorem C4_unconfigured_absent (cfg : Config) (env : SttEnv) (b : Bool)
    (h1 : truthy cfg.ELEVENLABS_API_KEY = false)
    (h2 : truthy cfg.GROQ_API_KEY = false) :
    (transcribe_audio cfg env b).result = .ok none ∧
    (transcribe_audio cfg env b).primaryCalled = false ∧
    (transcribe_audio cfg env b).secondaryCalled = false := by
  simp [transcribe_audio, h1, h2]

/-- Witness for C4 with both keys absent. -/
theorem C4_witness :
    (transcribe_audio ⟨none, none, none⟩
        ⟨.success (.json "hi"), .success (.json "hi")⟩ false).result = .ok none ∧
    (transcribe_audio ⟨none, none, none⟩
        ⟨.success (.json "hi"), .success (.json "hi")⟩ false).primaryCalled = false ∧
    (transcribe_audio ⟨none, none, none⟩
        ⟨.success (.json "hi"), .success (.json "hi")⟩ false).secondaryCalled = false :=
  C4_unconfigured_absent ⟨none, none, none⟩
    ⟨.success (.json "hi"), .success (.json "hi")⟩ false rfl rfl

/-- C3: the shared flag starts false, becomes true exactly when a primary
STT or TTS call is actually made and its response is classified as blocking
(HTTP 401 or anomaly marker), and is never reset: the flag after a call is
the flag before it, or-ed with the blocking classification of the primary
call made.  In particular `blocked = true` going in forces `blocked = true`
coming out of either entry point. -/
theorem C3_blocked_flag_machine :
    initial_elevenlabs_blocked = false ∧
    (∀ (cfg : Config) (env : SttEnv) (b : Bool),
      (transcribe_audio cfg env b).blocked =
        (b || ((transcribe_audio cfg env b).primaryCalled &&
                isBlockingResp env.primaryResp))) ∧
    (∀ (cfg : Config) (env : TtsEnv) (b : Bool),
      (text_to_speech cfg env b).blocked =
        (b || ((text_to_speech cfg env b).primaryCalled &&
                isBlockingResp env.primaryResp))) := by
  refine ⟨rfl, ?_, ?_⟩
  · intro cfg env b
    by_cases hgate : (truthy cfg.ELEVENLABS_API_KEY && !b) = true
    · have h2 := elevenlabs_stt_snd env.primaryResp b
      unfold transcribe_audio
      rw [if_pos hgate]
      rcases hms : elevenlabs_stt env.primaryResp b with ⟨r, b'⟩
      rw [hms] at h2
      rcases r with e | o
      · simpa using h2
      · rcases o with _ | t
        · by_cases hg : truthy cfg.GROQ_API_KEY = true <;>
            simp [hg] <;> simpa using h2
        · simpa using h2
    · unfold transcribe_audio
      rw [if_neg hgate]
      by_cases hg : truthy cfg.GROQ_API_KEY = true <;> simp [hg]
  · intro cfg env b
    by_cases hgate : ttsPrimaryAttempted cfg b = true
    · have h2 := elevenlabs_tts_snd env.primaryResp b
      unfold text_to_speech
      rw [if_pos hgate]
      rcases hms : elevenlabs_tts env.primaryResp b with ⟨r, b'⟩
      rw [hms] at h2
      rcases r with _ | bytes
      · rcases he : edge_tts env.secondaryStream with _ | bytes2 <;>
          simp [he] <;> simpa using h2
      · simpa using h2
    · unfold text_to_speech
      rw [if_neg hgate]
      rcases he : edge_tts env.secondaryStream with _ | bytes <;> simp [he]

/-- C5: whenever the primary TTS step yields no result (not attempted
because blocked/unconfigured, or attempted and returning `None`),
`text_to_speech` calls Edge-TTS; and when the Edge stream yields a non-empty
concatenation of audio chunks, the overall result is exactly those bytes. -/
theorem C5_tts_fallback_exact (cfg : Config) (env : TtsEnv) (b : Bool)
    (h : ttsPrimaryAttempted cfg b = false ∨
          (elevenlabs_tts env.primaryResp b).1 = none) :
    (text_to_speech cfg env b).secondaryCalled = true ∧
    (∀ chunks, env.secondaryStream = .stream chunks → edgeAudioBytes chunks ≠ [] →
      (text_to_speech cfg env b).result = some (edgeAudioBytes chunks)) := by
  by_cases hgate : ttsPrimaryAttempted cfg b = true
  · have hnone : (elevenlabs_tts env.primaryResp b).1 = none := by
      rcases h with h | h
      · rw [hgate] at h; exact absurd h (by simp)
      · exact h
    constructor
    · unfold text_to_speech
      rw [if_pos hgate]
      rcases hms : elevenlabs_tts env.primaryResp b with ⟨r, b'⟩
      rw [hms] at hnone
      simp at hnone
      subst hnone
      rcases he : edge_tts env.secondaryStream with _ | bytes2 <;> simp [he]
    · intro chunks hst hne
      unfold text_to_speech
      rw [if_pos hgate]
      rcases hms : elevenlabs_tts env.primaryResp b with ⟨r, b'⟩
      rw [hms] at hnone
      simp at hnone
      subst hnone
      simp [edge_tts, hst, hne]
  · have hgf : ttsPrimaryAttempted cfg b = false := by
      cases hx : ttsPrimaryAttempted cfg b
      · rfl
      · exact absurd hx hgate
    constructor
    · unfold text_to_speech
      rw [if_neg hgate]
      rcases he : edge_tts env.secondaryStream with _ | bytes <;> simp [he]
    · intro chunks hst hne
      unfold text_to_speech
      rw [if_neg hgate]
      simp [edge_tts, hst, hne]

/-- Witness for C5: primary blocked, secondary streams two audio chunks. -/
theorem C5_witness :
    (text_to_speech ⟨some "k", some "v", none⟩
        ⟨.success [7], .stream [.audio [1], .other, .audio [2]]⟩ true).secondaryCalled
      = true ∧
    (∀ chunks,
      (EdgeStream.stream [.audio [1], .other, .audio [2]] : EdgeStream)
          = .stream chunks →
      edgeAudioBytes chunks ≠ [] →
      (text_to_speech ⟨some "k", some "v", none⟩
          ⟨.success [7], .stream [.audio [1], .other, .audio [2]]⟩ true).result
        = some (edgeAudioBytes chunks)) :=
  C5_tts_fallback_exact ⟨some "k", some "v", none⟩
    ⟨.success [7], .stream [.audio [1], .other, .audio [2]]⟩ true (Or.inl rfl)

/-- C6 counterexample: with the primary configured and unblocked, a 2xx
primary TTS response with an empty body and a secondary stream with zero
audio chunks make `text_to_speech` return the empty byte string — a present
value, not the absent result the claim requires when "both TTS providers
fail or produce an empty result". -/
theorem C6_counterexample :
    (text_to_speech ⟨some "k", some "v", none⟩
        ⟨.success [], .stream []⟩ false).result = some [] ∧
    (text_to_speech ⟨some "k", some "v", none⟩
        ⟨.success [], .stream []⟩ false).result ≠ none :=
  ⟨by decide, by decide⟩

/-- C6 (amended): if the primary TTS step yields `None` (HTTP error,
transport error, blocked, or not configured — but not a 2xx with an empty
body, which is returned as-is) and the Edge stream yields no audio (zero
audio chunks or an exception), then `text_to_speech` returns the absent
result. -/
theorem C6_both_fail_absent (cfg : Config) (env : TtsEnv) (b : Bool)
    (hp : ttsPrimaryAttempted cfg b = false ∨
           (elevenlabs_tts env.primaryResp b).1 = none)
    (hs : edge_tts env.secondaryStream = none) :
    (text_to_speech cfg env b).result = none := by
  by_cases hgate : ttsPrimaryAttempted cfg b = true
  · have hnone : (elevenlabs_tts env.primaryResp b).1 = none := by
      rcases hp with h | h
      · rw [hgate] at h; exact absurd h (by simp)
      · exact h
    unfold text_to_speech
    rw [if_pos hgate]
    rcases hms : elevenlabs_tts env.primaryResp b with ⟨r, b'⟩
    rw [hms] at hnone
    simp at hnone
    subst hnone
    simp [hs]
  · unfold text_to_speech
    rw [if_neg hgate]
    simp [hs]

/-- Witness for the amended C6 at the spec's own example: primary answers
HTTP 500, the Edge stream yields zero audio chunks. -/
theorem C6_witness :
    (text_to_speech ⟨some "k", some "v", none⟩
        ⟨.statusError 500 "server error", .stream []⟩ false).result = none :=
  C6_both_fail_absent ⟨some "k", some "v", none⟩
    ⟨.statusError 500 "server error", .stream []⟩ false
    (Or.inr (by decide)) (by decide)

/-- C7: each tabulated extension maps to its fixed MIME type in both STT
helpers, every other extension maps to the default `audio/ogg`, and in
particular `note.flac` maps to `audio/flac` and `note.xyz` to `audio/ogg`. -/
theorem C7_mime_table (fn : String) :
    (extOf fn = "wav" → elevenlabs_mime fn = "audio/wav" ∧ groq_mime fn = "audio/wav") ∧
    (extOf fn = "mp3" → elevenlabs_mime fn = "audio/mpeg" ∧ groq_mime fn = "audio/mpeg") ∧
    (extOf fn = "webm" → elevenlabs_mime fn = "audio/webm" ∧ groq_mime fn = "audio/webm") ∧
    (extOf fn = "ogg" → elevenlabs_mime fn = "audio/ogg" ∧ groq_mime fn = "audio/ogg") ∧
    (extOf fn = "oga" → elevenlabs_mime fn = "audio/ogg" ∧ groq_mime fn = "audio/ogg") ∧
    (extOf fn = "opus" → elevenlabs_mime fn = "audio/ogg" ∧ groq_mime fn = "audio/ogg") ∧
    (extOf fn = "m4a" → elevenlabs_mime fn = "audio/mp4" ∧ groq_mime fn = "audio/mp4") ∧
    (extOf fn = "flac" → elevenlabs_mime fn = "audio/flac" ∧ groq_mime fn = "audio/flac") ∧
    (extOf fn ∉ (["wav", "mp3", "webm", "ogg", "oga", "opus", "m4a", "flac"] : List String) →
      elevenlabs_mime fn = "audio/ogg" ∧ groq_mime fn = "audio/ogg") ∧
    (elevenlabs_mime "note.flac" = "audio/flac" ∧ groq_mime "note.flac" = "audio/flac") ∧
    (elevenlabs_mime "note.xyz" = "audio/ogg" ∧ groq_mime "note.xyz" = "audio/ogg") := by
  refine ⟨?_, ?_, ?_, ?_, ?_, ?_, ?_, ?_, ?_, ⟨by decide, by decide⟩, ⟨by decide, by decide⟩⟩
  · intro h; unfold elevenlabs_mime groq_mime; rw [h]; exact ⟨by decide, by decide⟩
  · intro h; unfold elevenlabs_mime groq_mime; rw [h]; exact ⟨by decide, by decide⟩
  · intro h; unfold elevenlabs_mime groq_mime; rw [h]; exact ⟨by decide, by decide⟩
  · intro h; unfold elevenlabs_mime groq_mime; rw [h]; exact ⟨by decide, by decide⟩
  · intro h; unfold elevenlabs_mime groq_mime; rw [h]; exact ⟨by decide, by decide⟩
  · intro h; unfold elevenlabs_mime groq_mime; rw [h]; exact ⟨by decide, by decide⟩
  · intro h; unfold elevenlabs_mime groq_mime; rw [h]; exact ⟨by decide, by decide⟩
  · intro h; unfold elevenlabs_mime groq_mime; rw [h]; exact ⟨by decide, by decide⟩
  · intro h
    simp only [List.mem_cons, List.not_mem_nil, or_false, not_or] at h
    obtain ⟨h1, h2, h3, h4, h5, h6, h7, h8⟩ := h
    unfold elevenlabs_mime groq_mime mimeMap
    simp [h1, h2, h3, h4, h5, h6, h7, h8]

/-- Witness for C7 at a tabulated and at an untabulated extension. -/
theorem C7_witness :
    (elevenlabs_mime "a.wav" = "audio/wav" ∧ groq_mime "a.wav" = "audio/wav") ∧
    (elevenlabs_mime "b.xyz" = "audio/ogg" ∧ groq_mime "b.xyz" = "audio/ogg") :=
  ⟨(C7_mime_table "a.wav").1 (by decide),
   (C7_mime_table "b.xyz").2.2.2.2.2.2.2.2.1 (by decide)⟩

/-- C8 counterexample: with the primary STT configured and unblocked, a 2xx
primary response whose body is not valid JSON makes `resp.json()` raise, and
the exception escapes `transcribe_audio` (only `httpx.HTTPStatusError` and
`httpx.RequestError` are caught) — the failure does not collapse to an
absent result. -/
theorem C8_counterexample :
    (transcribe_audio ⟨some "k", none, some "g"⟩
        ⟨.success .malformed, .success (.json "hi")⟩ false).result
      = .error .jsonDecodeError ∧
    (transcribe_audio ⟨some "k", none, some "g"⟩
        ⟨.success .malformed, .success (.json "hi")⟩ false).result
      ≠ .ok none :=
  ⟨by decide, by decide⟩

/-- C8 (amended): no HTTP-status error, transport error, or empty result
makes an exception escape the entry points; `text_to_speech` is exception
free outright (both its helpers catch broadly enough), and
`transcribe_audio` raises only when an STT vendor answers 2xx with a body
that is not a JSON object — excluding that case, it always returns a plain
(possibly absent) result. -/
theorem C8_no_escape_when_json_wellformed (cfg : Config) (env : SttEnv) (b : Bool)
    (hp : env.primaryResp ≠ .success .malformed)
    (hsnd : env.secondaryResp ≠ .success .malformed) :
    ∃ r, (transcribe_audio cfg env b).result = .ok r := by
  unfold transcribe_audio
  by_cases hgate : (truthy cfg.ELEVENLABS_API_KEY && !b) = true
  · rw [if_pos hgate]
    obtain ⟨r, hr⟩ := elevenlabs_stt_ok env.primaryResp b hp
    rcases hms : elevenlabs_stt env.primaryResp b with ⟨r0, b'⟩
    rw [hms] at hr
    simp only at hr
    subst hr
    cases r with
    | some t => exact ⟨some t, rfl⟩
    | none =>
        by_cases hg : truthy cfg.GROQ_API_KEY = true
        · obtain ⟨r2, hr2⟩ := groq_whisper_stt_ok env.secondaryResp hsnd
          exact ⟨r2, by simp [hg, hr2]⟩
        · exact ⟨none, by simp [hg]⟩
  · rw [if_neg hgate]
    by_cases hg : truthy cfg.GROQ_API_KEY = true
    · obtain ⟨r2, hr2⟩ := groq_whisper_stt_ok env.secondaryResp hsnd
      rw [if_pos hg]
      exact ⟨r2, by simp [hr2]⟩
    · rw [if_neg hg]
      exact ⟨none, rfl⟩

/-- Witness for the amended C8: a 500 from the primary, a transport error at
the secondary — the call still returns an `ok` (absent) result. -/
theorem C8_witness :
    (HttpResponse.statusError 500 "boom" : HttpResponse SttBody)
        ≠ .success .malformed ∧
    (HttpResponse.requestError : HttpResponse SttBody) ≠ .success .malformed ∧
    ∃ r, (transcribe_audio ⟨some "k", none, some "g"⟩
        ⟨.statusError 500 "boom", .requestError⟩ false).result = .ok r :=
  ⟨by decide, by decide,
   C8_no_escape_when_json_wellformed ⟨some "k", none, some "g"⟩
     ⟨.statusError 500 "boom", .requestError⟩ false (by decide) (by decide)⟩

/-- C9: a primary failure not classified as blocking — a non-401 status
without the anomaly marker, or a transport error — leaves the flag false
while both chains fall through to their secondary provider. -/
theorem C9_transient_failure_no_block (cfg : Config) (senv : SttEnv) (tenv : TtsEnv)
    (hkey : truthy cfg.ELEVENLABS_API_KEY = true)
    (hvoice : truthy cfg.ELEVENLABS_VOICE_ID = true)
    (hgroq : truthy cfg.GROQ_API_KEY = true)
    (hs : nonBlockingFailure senv.primaryResp)
    (ht : nonBlockingFailure tenv.primaryResp) :
    (transcribe_audio cfg senv false).blocked = false ∧
    (transcribe_audio cfg senv false).secondaryCalled = true ∧
    (text_to_speech cfg tenv false).blocked = false ∧
    (text_to_speech cfg tenv false).secondaryCalled = true := by
  have hstt := elevenlabs_stt_nonblocking senv.primaryResp false hs
  have htts := elevenlabs_tts_nonblocking tenv.primaryResp false ht
  refine ⟨?_, ?_, ?_, ?_⟩
  · simp [transcribe_audio, hkey, hgroq, hstt]
  · simp [transcribe_audio, hkey, hgroq, hstt]
  · have hgate : ttsPrimaryAttempted cfg false = true := by
      simp [ttsPrimaryAttempted, hkey, hvoice]
    unfold text_to_speech
    rw [if_pos hgate, htts]
    rcases he : edge_tts tenv.secondaryStream with _ | bytes <;> simp [he]
  · have hgate : ttsPrimaryAttempted cfg false = true := by
      simp [ttsPrimaryAttempted, hkey, hvoice]
    unfold text_to_speech
    rw [if_pos hgate, htts]
    rcases he : edge_tts tenv.secondaryStream with _ | bytes <;> simp [he]

/-- Witness for C9: a 500 on the STT primary and a timeout on the TTS
primary. -/
theorem C9_witness :
    (transcribe_audio ⟨some "k", some "v", some "g"⟩
        ⟨.statusError 500 "oops", .success (.json "hi")⟩ false).blocked = false ∧
    (transcribe_audio ⟨some "k", some "v", some "g"⟩
        ⟨.statusError 500 "oops", .success (.json "hi")⟩ false).secondaryCalled = true ∧
    (text_to_speech ⟨some "k", some "v", some "g"⟩
        ⟨.requestError, .stream [.audio [9]]⟩ false).blocked = false ∧
    (text_to_speech ⟨some "k", some "v", some "g"⟩
        ⟨.requestError, .stream [.audio [9]]⟩ false).secondaryCalled = true :=
  C9_transient_failure_no_block ⟨some "k", some "v", some "g"⟩
    ⟨.statusError 500 "oops", .success (.json "hi")⟩
    ⟨.requestError, .stream [.audio [9]]⟩
    (by decide) (by decide) (by decide)
    (Or.inl ⟨500, "oops", rfl, by decide, by decide⟩)
    (Or.inr rfl)

/-- C10: a filename with no dot is given the extension `wav`, hence MIME
`audio/wav` (not the unknown-extension default `audio/ogg`), in both STT
helpers; and the lookup lowercases the extension first, so `NOTE.FLAC` maps
to `audio/flac`. -/
theorem C10_dotless_and_uppercase (fn : String)
    (h : fn.toList.contains '.' = false) :
    elevenlabs_mime fn = "audio/wav" ∧ groq_mime fn = "audio/wav" ∧
    elevenlabs_mime "NOTE.FLAC" = "audio/flac" ∧
    groq_mime "NOTE.FLAC" = "audio/flac" := by
  have hext : extOf fn = "wav" := by
    unfold extOf
    rw [if_neg (fun hc => by rw [h] at hc; exact Bool.noConfusion hc)]
  refine ⟨?_, ?_, by decide, by decide⟩
  · unfold elevenlabs_mime; rw [hext]; decide
  · unfold groq_mime; rw [hext]; decide

/-- Witness for C10 at the dotless filename `note`. -/
theorem C10_witness :
    elevenlabs_mime "note" = "audio/wav" ∧ groq_mime "note" = "audio/wav" ∧
    elevenlabs_mime "NOTE.FLAC" = "audio/flac" ∧
    groq_mime "NOTE.FLAC" = "audio/flac" :=
  C10_dotless_and_uppercase "note" (by decide)
